import Mathlib

/-!
Verification of the kdash terminal dashboard core (src/main.rs, src/ui/help.rs)
against its natural-language specification.

The embedding models the control structure of `main`, the three worker entry
points (`start_network`, `start_stream_network`, `start_cmd_runner`) and the
UI loop (`start_ui`) as trace-producing functions, and the static help table
(`get_help_docs`) as a literal translation.
-/

namespace Kdash

/-! ## Startup: `main` (src/main.rs lines 71-137)

`main` validates the CLI configuration, creates the three bounded mpsc
channels (capacity 500 each), constructs the shared `App` state with
poll-to-tick ratio `poll_rate / tick_rate`, spawns the three worker threads
and finally runs the UI loop.  A failed validation calls Rust `panic!`, so
nothing after it runs.  Rust `%` on `u64` panics when the divisor is zero,
which the model reflects: the check `cli.poll_rate % cli.tick_rate > 0`
itself aborts when `tick_rate = 0`. -/

/-- The three mpsc channels created in `main` (lines 99-101). -/
inductive ChannelKind
  | query
  | stream
  | cmd
deriving DecidableEq, Repr

/-- The three worker threads spawned in `main` (lines 118-131). -/
inductive WorkerKind
  | query
  | stream
  | cmd
deriving DecidableEq, Repr

/-- What `main` has set up once validation passed: the channels with their
capacities (lines 99-101), the poll-to-tick ratio handed to `App::new`
(line 109), the worker threads spawned (lines 118-131) and the UI loop
started (line 134). -/
structure LaunchedSystem where
  channels : List (ChannelKind × Nat)
  pollToTickRatio : Nat
  spawnedWorkers : List WorkerKind
  uiStarted : Bool
deriving DecidableEq, Repr

/-- Outcome of `main`: either a `panic!` before anything was created, or a
launched system. -/
inductive MainResult
  | panicked (msg : String)
  | launched (sys : LaunchedSystem)
deriving DecidableEq, Repr

/-- Embedding of `main` (src/main.rs lines 91-134), starting at the
validation checks.  `tick_rate >= 1000` panics (line 92); computing
`poll_rate % tick_rate` with `tick_rate = 0` panics with Rust's
division-by-zero message; a nonzero remainder panics (line 95); otherwise
the channels, the app state and the workers are created. -/
def runMain (tickRate pollRate : Nat) : MainResult :=
  if 1000 ≤ tickRate then
    MainResult.panicked "Tick rate must be below 1000"
  else if tickRate = 0 then
    MainResult.panicked "attempt to calculate the remainder with a divisor of zero"
  else if pollRate % tickRate > 0 then
    MainResult.panicked "Poll rate must be multiple of tick-rate"
  else
    MainResult.launched
      { channels := [(ChannelKind.query, 500), (ChannelKind.stream, 500), (ChannelKind.cmd, 500)]
        pollToTickRatio := pollRate / tickRate
        spawnedWorkers := [WorkerKind.query, WorkerKind.stream, WorkerKind.cmd]
        uiStarted := true }

end Kdash

namespace Kdash

/-- C3 -- For every CLI configuration with `tick_rate >= 1000`, or with
`poll_rate` not an exact multiple of `tick_rate`, startup aborts with a fatal
error: `runMain` returns `panicked`, so no channel, worker thread or UI loop
is ever created and the configuration is not silently rounded. -/
theorem c3_invalid_config_aborts (tickRate pollRate : Nat)
    (h : 1000 ≤ tickRate ∨ ¬ tickRate ∣ pollRate) :
    ∃ msg, runMain tickRate pollRate = MainResult.panicked msg := by
  unfold runMain
  by_cases h1000 : 1000 ≤ tickRate
  · exact ⟨"Tick rate must be below 1000", by simp [h1000]⟩
  · have hnd : ¬ tickRate ∣ pollRate := h.resolve_left h1000
    by_cases h0 : tickRate = 0
    · exact ⟨"attempt to calculate the remainder with a divisor of zero", by simp [h1000, h0]⟩
    · have hmod : pollRate % tickRate ≠ 0 := fun hc => hnd (Nat.dvd_of_mod_eq_zero hc)
      exact ⟨"Poll rate must be multiple of tick-rate",
        by simp [h1000, h0, Nat.pos_of_ne_zero hmod]⟩

/-- Witness for C3 at the spec's own scenario `tick_rate = 1000`. -/
theorem c3_invalid_config_aborts_witness :
    ∃ msg, runMain 1000 5000 = MainResult.panicked msg :=
  c3_invalid_config_aborts 1000 5000 (Or.inl (by decide))

/-- C4, counterexample -- the configuration `tick_rate = 250`, `poll_rate = 0`
passes startup validation (`0 % 250 = 0`), yet the poll-to-tick ratio handed
to the application state is `0 / 250 = 0`, which is not `≥ 1` as the claim
requires. -/
theorem c4_ratio_counterexample :
    (∃ sys, runMain 250 0 = MainResult.launched sys ∧ sys.pollToTickRatio = 0) ∧
      ¬ (1 : Nat) ≤ 0 := by
  refine ⟨⟨_, rfl, rfl⟩, by decide⟩

/-- C4, amended -- for every CLI configuration that passes startup validation,
the poll-to-tick ratio handed to the application state equals
`poll_rate / tick_rate`; it is `≥ 1` whenever `tick_rate ≤ poll_rate`
(equivalently whenever `poll_rate ≠ 0`, since `poll_rate` must be a multiple
of `tick_rate`), but `poll_rate = 0` passes validation with ratio `0`. -/
theorem c4_ratio_amended (tickRate pollRate : Nat) (sys : LaunchedSystem)
    (h : runMain tickRate pollRate = MainResult.launched sys) :
    sys.pollToTickRatio = pollRate / tickRate ∧
      (tickRate ≤ pollRate → 1 ≤ sys.pollToTickRatio) ∧
      (pollRate ≠ 0 → 1 ≤ sys.pollToTickRatio) := by
  unfold runMain at h
  split at h
  · exact absurd h (by simp)
  · split at h
    · exact absurd h (by simp)
    · split at h
      · exact absurd h (by simp)
      · rename_i h1000 h0 hmod
        have hsys := (MainResult.launched.injEq _ _).mp h.symm
        have hratio : sys.pollToTickRatio = pollRate / tickRate := by
          rw [hsys]
        have htpos : 0 < tickRate := Nat.pos_of_ne_zero h0
        have hdvd : tickRate ∣ pollRate :=
          Nat.dvd_of_mod_eq_zero (Nat.eq_zero_of_not_pos hmod)
        refine ⟨hratio, ?_, ?_⟩
        · intro hle
          rw [hratio]
          exact (Nat.one_le_div_iff htpos).mpr hle
        · intro hpne
          rw [hratio]
          exact (Nat.one_le_div_iff htpos).mpr (Nat.le_of_dvd (Nat.pos_of_ne_zero hpne) hdvd)

/-- The system `main` launches at the default configuration
`tick_rate = 250`, `poll_rate = 5000` (ratio 20). -/
def defaultSys : LaunchedSystem where
  channels := [(ChannelKind.query, 500), (ChannelKind.stream, 500), (ChannelKind.cmd, 500)]
  pollToTickRatio := 20
  spawnedWorkers := [WorkerKind.query, WorkerKind.stream, WorkerKind.cmd]
  uiStarted := true

/-- Witness for C4 (amended) at the default configuration
`tick_rate = 250`, `poll_rate = 5000`, whose ratio is 20. -/
theorem c4_ratio_amended_witness :
    defaultSys.pollToTickRatio = 5000 / 250 ∧
      (250 ≤ 5000 → 1 ≤ defaultSys.pollToTickRatio) ∧
      ((5000 : Nat) ≠ 0 → 1 ≤ defaultSys.pollToTickRatio) :=
  c4_ratio_amended 250 5000 defaultSys rfl

/-- C8 -- whenever `main` gets past validation, it creates exactly three
communication channels -- the query, stream and cmd channels, in that order --
each a bounded mpsc channel of capacity exactly 500. -/
theorem c8_three_channels_capacity_500 (tickRate pollRate : Nat) (sys : LaunchedSystem)
    (h : runMain tickRate pollRate = MainResult.launched sys) :
    sys.channels.length = 3 ∧
      sys.channels.map Prod.fst = [ChannelKind.query, ChannelKind.stream, ChannelKind.cmd] ∧
      ∀ c ∈ sys.channels, c.2 = 500 := by
  unfold runMain at h
  split at h
  · exact absurd h (by simp)
  · split at h
    · exact absurd h (by simp)
    · split at h
      · exact absurd h (by simp)
      · have hsys := (MainResult.launched.injEq _ _).mp h.symm
        rw [hsys]
        refine ⟨rfl, rfl, ?_⟩
        intro c hc
        simp only [List.mem_cons, List.not_mem_nil, or_false] at hc
        rcases hc with rfl | rfl | rfl <;> rfl

/-- Witness for C8 at the default configuration. -/
theorem c8_three_channels_capacity_500_witness :
    defaultSys.channels.length = 3 ∧
      defaultSys.channels.map Prod.fst = [ChannelKind.query, ChannelKind.stream, ChannelKind.cmd] ∧
      ∀ c ∈ defaultSys.channels, c.2 = 500 :=
  c8_three_channels_capacity_500 250 5000 defaultSys rfl

/-! ## Worker entry points (src/main.rs lines 139-183)

`start_network` and `start_stream_network` first call the client factory
`get_client(None)`; on `Ok` they build their engine (`Network::new` /
`NetworkStream::new`) and run `while let Some(e) = io_rx.recv().await`,
handling one event to completion before receiving the next; on `Err` they
lock the app state and call `app.handle_error` exactly once, never reaching
the loop.  `start_cmd_runner` builds `CmdRunner::new(app)` directly -- it
never calls `get_client` -- and runs the same kind of consume loop.

The workers are modelled as trace-producing functions.  The event payload
type is left as a type parameter: `IoEvent`, `IoStreamEvent` and
`IoCmdEvent` live in modules outside the given sources and the workers treat
events opaquely, passing each to its handler.  The tokio mpsc channel
delivers messages in FIFO enqueue order, so the worker is applied to the
list of events in the order they were enqueued, each `dequeue` tagged with
its queue position. -/

/-- Result of the `get_client(None)` factory call, whose internals (kube
configuration, connectivity) are external I/O. -/
inductive ClientResult
  | ok
  | err (msg : String)
deriving DecidableEq, Repr

/-- Whether the factory call succeeded. -/
def ClientResult.isOk : ClientResult → Bool
  | ClientResult.ok => true
  | ClientResult.err _ => false

/-- One observable step of a worker thread: the factory call, engine
construction, the startup fatal-error write (`app.handle_error` in the `Err`
arm), entry into the `while let` consume loop, and the per-event dequeue /
handle-to-completion pair.  Dequeues carry their queue position. -/
inductive WorkerOp (α : Type)
  | callGetClient
  | engineNew
  | writeFatalError (msg : String)
  | enterConsumeLoop
  | dequeue (i : Nat) (e : α)
  | handleComplete (i : Nat) (e : α)
deriving DecidableEq, Repr

/-- The `while let Some(io_event) = io_rx.recv().await` loop shared by all
three workers: receive the event at queue position `i`, run its handler to
completion, then receive the next.  The queue's FIFO content is `events`. -/
def consumeLoop {α : Type} (i : Nat) : List α → List (WorkerOp α)
  | [] => []
  | e :: rest => WorkerOp.dequeue i e :: WorkerOp.handleComplete i e :: consumeLoop (i + 1) rest

/-- Embedding of `start_network` (src/main.rs lines 139-155): call
`get_client(None)`; on `Ok` build `Network::new` and enter the consume loop;
on `Err` write one fatal error into the app state and return. -/
def start_network {α : Type} (clientRes : ClientResult) (events : List α) : List (WorkerOp α) :=
  WorkerOp.callGetClient ::
    match clientRes with
    | ClientResult.ok => WorkerOp.engineNew :: WorkerOp.enterConsumeLoop :: consumeLoop 0 events
    | ClientResult.err e => [WorkerOp.writeFatalError ("Unable to obtain Kubernetes client. " ++ e)]

/-- Embedding of `start_stream_network` (src/main.rs lines 157-173): same
shape as `start_network`, with `NetworkStream::new` as the engine. -/
def start_stream_network {β : Type} (clientRes : ClientResult) (events : List β) :
    List (WorkerOp β) :=
  WorkerOp.callGetClient ::
    match clientRes with
    | ClientResult.ok => WorkerOp.engineNew :: WorkerOp.enterConsumeLoop :: consumeLoop 0 events
    | ClientResult.err e => [WorkerOp.writeFatalError ("Unable to obtain Kubernetes client. " ++ e)]

/-- Embedding of `start_cmd_runner` (src/main.rs lines 175-183): build
`CmdRunner::new(app)` -- no client factory call appears in this function --
and enter the consume loop. -/
def start_cmd_runner {γ : Type} (events : List γ) : List (WorkerOp γ) :=
  WorkerOp.engineNew :: WorkerOp.enterConsumeLoop :: consumeLoop 0 events

/-- How many times a worker trace invokes the `get_client` factory. -/
def clientFactoryCalls {α : Type} (t : List (WorkerOp α)) : Nat :=
  t.countP fun op =>
    match op with
    | WorkerOp.callGetClient => true
    | _ => false

/-- How many fatal startup errors a worker trace writes into the app state. -/
def fatalErrorWrites {α : Type} (t : List (WorkerOp α)) : Nat :=
  t.countP fun op =>
    match op with
    | WorkerOp.writeFatalError _ => true
    | _ => false

/-- Whether a worker trace reaches its queue-consume loop. -/
def entersConsumeLoop {α : Type} (t : List (WorkerOp α)) : Bool :=
  t.any fun op =>
    match op with
    | WorkerOp.enterConsumeLoop => true
    | _ => false

/-- The event of a `dequeue` step, if the step is one. -/
def dequeuedEvent {α : Type} : WorkerOp α → Option α
  | WorkerOp.dequeue _ e => some e
  | _ => none

/-- Every step of the consume loop is a dequeue or a handle-completion. -/
lemma consumeLoop_op_shape {α : Type} (evs : List α) :
    ∀ i op, op ∈ consumeLoop i evs →
      (∃ k e, op = WorkerOp.dequeue k e) ∨ ∃ k e, op = WorkerOp.handleComplete k e := by
  induction evs with
  | nil => intro i op hop; exact absurd hop (by simp [consumeLoop])
  | cons e rest ih =>
    intro i op hop
    simp only [consumeLoop, List.mem_cons] at hop
    rcases hop with rfl | rfl | hop
    · exact Or.inl ⟨i, e, rfl⟩
    · exact Or.inr ⟨i, e, rfl⟩
    · exact ih (i + 1) op hop

/-- The consume loop dequeues exactly the queue's events, in queue order. -/
lemma consumeLoop_filterMap_dequeued {α : Type} (evs : List α) :
    ∀ i, (consumeLoop i evs).filterMap dequeuedEvent = evs := by
  induction evs with
  | nil => intro i; rfl
  | cons e rest ih =>
    intro i
    simpa [consumeLoop, dequeuedEvent] using ih (i + 1)

/-- Position of each dequeue / handle-completion pair in the consume-loop
trace: the event at queue position `j` is dequeued at trace index `2j` and
its handling completes at trace index `2j + 1`. -/
lemma consumeLoop_getElem {α : Type} (evs : List α) :
    ∀ i j, (consumeLoop i evs)[2 * j]? = (evs[j]?).map (WorkerOp.dequeue (i + j)) ∧
      (consumeLoop i evs)[2 * j + 1]? = (evs[j]?).map (WorkerOp.handleComplete (i + j)) := by
  induction evs with
  | nil => intro i j; simp [consumeLoop]
  | cons e rest ih =>
    intro i j
    match j with
    | 0 => simp [consumeLoop]
    | Nat.succ j' =>
      obtain ⟨h1, h2⟩ := ih (i + 1) j'
      constructor
      · show (consumeLoop i (e :: rest))[2 * (j' + 1)]? =
          ((e :: rest)[j' + 1]?).map (WorkerOp.dequeue (i + (j' + 1)))
        have e1 : 2 * (j' + 1) = 2 * j' + 1 + 1 := by omega
        have e2 : i + (j' + 1) = i + 1 + j' := by omega
        rw [e1, e2]
        simpa [consumeLoop, List.getElem?_cons_succ] using h1
      · show (consumeLoop i (e :: rest))[2 * (j' + 1) + 1]? =
          ((e :: rest)[j' + 1]?).map (WorkerOp.handleComplete (i + (j' + 1)))
        have e1 : 2 * (j' + 1) + 1 = 2 * j' + 1 + 1 + 1 := by omega
        have e2 : i + (j' + 1) = i + 1 + j' := by omega
        rw [e1, e2]
        simpa [consumeLoop, List.getElem?_cons_succ] using h2

end Kdash

namespace Kdash

/-- C2, counterexample -- at startup with working clients and empty queues,
the cmd-runner worker makes zero calls to the `get_client` factory
(`start_cmd_runner` builds `CmdRunner::new(app)` with no client), so the
total number of client handles created by the three workers is 2, not 3. -/
theorem c2_client_handles_counterexample :
    clientFactoryCalls (start_cmd_runner ([] : List Nat)) = 0 ∧
      clientFactoryCalls (start_network ClientResult.ok ([] : List Nat)) +
          clientFactoryCalls (start_stream_network ClientResult.ok ([] : List Nat)) +
          clientFactoryCalls (start_cmd_runner ([] : List Nat)) = 2 := by
  decide

/-- C2, amended -- the query worker and the stream worker each call the
client factory exactly once at startup, establishing their own unshared
handle; the action/cmd worker never calls the factory, so exactly two client
handles are created in total. -/
theorem c2_client_handles_amended {α β γ : Type} (res res2 : ClientResult)
    (qq : List α) (sq : List β) (cq : List γ) :
    clientFactoryCalls (start_network res qq) = 1 ∧
      clientFactoryCalls (start_stream_network res2 sq) = 1 ∧
      clientFactoryCalls (start_cmd_runner cq) = 0 := by
  refine ⟨?_, ?_, ?_⟩
  · cases res with
    | ok =>
      simp [start_network, clientFactoryCalls, List.countP_cons]
      intro a ha
      rcases consumeLoop_op_shape qq 0 a ha with ⟨k, x, rfl⟩ | ⟨k, x, rfl⟩ <;> rfl
    | err m => simp [start_network, clientFactoryCalls, List.countP_cons]
  · cases res2 with
    | ok =>
      simp [start_stream_network, clientFactoryCalls, List.countP_cons]
      intro a ha
      rcases consumeLoop_op_shape sq 0 a ha with ⟨k, x, rfl⟩ | ⟨k, x, rfl⟩ <;> rfl
    | err m => simp [start_stream_network, clientFactoryCalls, List.countP_cons]
  · simp [start_cmd_runner, clientFactoryCalls, List.countP_cons]
    intro a ha
    rcases consumeLoop_op_shape cq 0 a ha with ⟨k, x, rfl⟩ | ⟨k, x, rfl⟩ <;> rfl

/-- C5 -- for the query worker and the stream worker: when client
construction fails, the worker writes exactly one fatal error into the
application state and never reaches its consume loop; when it succeeds, the
worker enters the consume loop and writes no startup error. -/
theorem c5_worker_startup_outcome {α β : Type} (res res2 : ClientResult)
    (qq : List α) (sq : List β) :
    fatalErrorWrites (start_network res qq) = (if res.isOk then 0 else 1) ∧
      entersConsumeLoop (start_network res qq) = res.isOk ∧
      fatalErrorWrites (start_stream_network res2 sq) = (if res2.isOk then 0 else 1) ∧
      entersConsumeLoop (start_stream_network res2 sq) = res2.isOk := by
  refine ⟨?_, ?_, ?_, ?_⟩
  · cases res with
    | ok =>
      simp [start_network, fatalErrorWrites, List.countP_cons, ClientResult.isOk]
      intro a ha
      rcases consumeLoop_op_shape qq 0 a ha with ⟨k, x, rfl⟩ | ⟨k, x, rfl⟩ <;> rfl
    | err m => simp [start_network, fatalErrorWrites, List.countP_cons, ClientResult.isOk]
  · cases res <;> simp [start_network, entersConsumeLoop, ClientResult.isOk]
  · cases res2 with
    | ok =>
      simp [start_stream_network, fatalErrorWrites, List.countP_cons, ClientResult.isOk]
      intro a ha
      rcases consumeLoop_op_shape sq 0 a ha with ⟨k, x, rfl⟩ | ⟨k, x, rfl⟩ <;> rfl
    | err m =>
      simp [start_stream_network, fatalErrorWrites, List.countP_cons, ClientResult.isOk]
  · cases res2 <;> simp [start_stream_network, entersConsumeLoop, ClientResult.isOk]

/-- C6 -- the query worker processes the queue strictly in enqueue order,
one request at a time: its trace dequeues exactly the enqueued events in
order (no reordering, no coalescing of duplicates), and the handling of the
request at queue position `j` completes at trace index `4 + 2j`, strictly
before the request at position `j + 1` is dequeued at trace index `5 + 2j`. -/
theorem c6_query_worker_fifo {α : Type} (events : List α) :
    (start_network ClientResult.ok events).filterMap dequeuedEvent = events ∧
      ∀ j, (start_network ClientResult.ok events)[4 + 2 * j]? =
            (events[j]?).map (WorkerOp.handleComplete j) ∧
          (start_network ClientResult.ok events)[5 + 2 * j]? =
            (events[j + 1]?).map (WorkerOp.dequeue (j + 1)) ∧
          4 + 2 * j < 5 + 2 * j := by
  constructor
  · simpa [start_network, dequeuedEvent] using consumeLoop_filterMap_dequeued events 0
  · intro j
    obtain ⟨_, hcomp⟩ := consumeLoop_getElem events 0 j
    obtain ⟨hdeq, _⟩ := consumeLoop_getElem events 0 (j + 1)
    refine ⟨?_, ?_, by omega⟩
    · have hidx : 4 + 2 * j = 2 * j + 1 + 1 + 1 + 1 := by omega
      rw [hidx]
      simpa [start_network, List.getElem?_cons_succ, Nat.zero_add] using hcomp
    · have hidx : 5 + 2 * j = 2 * (j + 1) + 1 + 1 + 1 := by omega
      rw [hidx]
      simpa [start_network, List.getElem?_cons_succ, Nat.zero_add] using hdeq

end Kdash

namespace Kdash

/-! ## UI loop: `start_ui` (src/main.rs lines 185-246) and `shutdown`
(lines 249-255)

`start_ui` enables raw mode, enters the alternate screen, clears the
terminal and hides the cursor, then runs the main loop.  Each iteration
acquires the `App` mutex guard (`app.lock().await`, line 203), reads the
terminal size, draws, and only then calls `events.next()?` (line 216) -- the
blocking wait for the next input, mouse or tick event -- while the guard is
still alive.  A `Ctrl+C` input breaks out before `handle_key_events` is
called; any other input goes to `handle_key_events`, a mouse event to
`handle_mouse_events`, a tick to `app.on_tick`.  The iteration ends by
checking `app.should_quit` and breaking if set; the guard is dropped
(releasing the lock) when control leaves the iteration scope, whether by
falling through or by `break`.  After the loop, `start_ui` shows the cursor
and calls `shutdown`, which disables raw mode, leaves the alternate screen
and shows the cursor again.

The loop is modelled over a finite list of iteration inputs: the event
`events.next()` returns, paired with the value `app.should_quit` has at the
end-of-iteration check (the handlers and `on_tick` that may set it live in
modules outside the given sources). -/

/-- Decoded key (`Key::from(key_event)`, line 220); the constructors the
loop distinguishes are `Ctrl` combinations versus everything else. -/
inductive Key
  | ctrl (c : Char)
  | char (c : Char)
  | otherKey
deriving DecidableEq, Repr

/-- The three event variants `events.next()` can produce
(lines 217, 229, 231). -/
inductive UiEvent
  | input (k : Key)
  | mouseInput
  | tick
deriving DecidableEq, Repr

/-- One iteration's input: the event the blocking `events.next()` call
returns, and the value of `app.should_quit` at the end-of-iteration check
(line 238) after the handlers ran. -/
structure UiInput where
  ev : UiEvent
  quitAfter : Bool
deriving DecidableEq, Repr

/-- One observable step of `start_ui`: terminal setup, the lock acquire /
release on the `App` mutex, the draw, the blocking event wait, the three
dispatch targets, the loop break, and the terminal-restoration steps. -/
inductive UiOp
  | enableRawMode
  | enterAltScreen
  | clearTerminal
  | hideCursor
  | lockAcquire
  | readTerminalSize
  | draw
  | awaitEvent (ev : UiEvent)
  | handleKeyEvents (k : Key)
  | handleMouseEvents
  | onTick
  | breakLoop
  | lockRelease
  | showCursor
  | disableRawMode
  | leaveAltScreen
deriving DecidableEq, Repr

/-- One iteration of the main UI loop (lines 202-241): lock, read size,
draw, block on `events.next()`, dispatch, then either fall through
(releasing the lock at scope end) or `break` (which also releases the lock
on leaving the scope).  Returns the iteration's trace and whether the loop
broke. -/
def uiIter (inp : UiInput) : List UiOp × Bool :=
  let setup := [UiOp.lockAcquire, UiOp.readTerminalSize, UiOp.draw, UiOp.awaitEvent inp.ev]
  match inp.ev with
  | UiEvent.input k =>
    if k = Key.ctrl 'c' then
      (setup ++ [UiOp.breakLoop, UiOp.lockRelease], true)
    else if inp.quitAfter then
      (setup ++ [UiOp.handleKeyEvents k, UiOp.breakLoop, UiOp.lockRelease], true)
    else
      (setup ++ [UiOp.handleKeyEvents k, UiOp.lockRelease], false)
  | UiEvent.mouseInput =>
    if inp.quitAfter then
      (setup ++ [UiOp.handleMouseEvents, UiOp.breakLoop, UiOp.lockRelease], true)
    else
      (setup ++ [UiOp.handleMouseEvents, UiOp.lockRelease], false)
  | UiEvent.tick =>
    if inp.quitAfter then
      (setup ++ [UiOp.onTick, UiOp.breakLoop, UiOp.lockRelease], true)
    else
      (setup ++ [UiOp.onTick, UiOp.lockRelease], false)

/-- Whether an iteration input makes the loop break: a `Ctrl+C` input, or
`should_quit` set by the time of the end-of-iteration check. -/
def quitTrigger (inp : UiInput) : Bool :=
  match inp.ev with
  | UiEvent.input k => k = Key.ctrl 'c' || inp.quitAfter
  | _ => inp.quitAfter

/-- The main UI loop over a finite list of iteration inputs: run iterations
until one breaks; if the inputs run out first, the loop is still running
(second component `false`). -/
def uiLoopTrace : List UiInput → List UiOp × Bool
  | [] => ([], false)
  | inp :: rest =>
    match uiIter inp with
    | (ops, true) => (ops, true)
    | (ops, false) => ((ops ++ (uiLoopTrace rest).1), (uiLoopTrace rest).2)

/-- Terminal initialization in `start_ui` (lines 188-197). -/
def uiInitOps : List UiOp :=
  [UiOp.enableRawMode, UiOp.enterAltScreen, UiOp.clearTerminal, UiOp.hideCursor]

/-- `shutdown` (lines 249-255): disable raw mode, leave the alternate
screen, show the cursor. -/
def shutdownOps : List UiOp :=
  [UiOp.disableRawMode, UiOp.leaveAltScreen, UiOp.showCursor]

/-- Embedding of `start_ui` (lines 185-246): terminal setup, the main loop,
and -- once the loop has broken -- `terminal.show_cursor()` (line 243)
followed by `shutdown` (line 244).  If the finite input list ends without a
quit, the loop is still blocked and no restoration has happened. -/
def start_ui_trace (inputs : List UiInput) : List UiOp :=
  uiInitOps ++ (uiLoopTrace inputs).1 ++
    (if (uiLoopTrace inputs).2 then UiOp.showCursor :: shutdownOps else [])

/-- Whether an op is the blocking event wait. -/
def isAwaitEvent : UiOp → Bool
  | UiOp.awaitEvent _ => true
  | _ => false

/-- Whether an op releases the `App` mutex. -/
def isLockRelease : UiOp → Bool
  | UiOp.lockRelease => true
  | _ => false

/-- Whether some lock release occurs strictly before the first blocking
event wait of a trace. -/
def releasesBeforeEventWait (ops : List UiOp) : Bool :=
  (ops.takeWhile fun op => ! isAwaitEvent op).any isLockRelease

end Kdash

namespace Kdash

/-- The broken flag of one iteration equals its quit trigger. -/
lemma uiIter_snd (inp : UiInput) : (uiIter inp).2 = quitTrigger inp := by
  rcases inp with ⟨ev, q⟩
  cases ev with
  | input k =>
    by_cases hk : k = Key.ctrl 'c' <;> cases q <;> simp [uiIter, quitTrigger, hk]
  | mouseInput => cases q <;> simp [uiIter, quitTrigger]
  | tick => cases q <;> simp [uiIter, quitTrigger]

end Kdash

namespace Kdash

/-- Iteration trace on a `Ctrl+C` input: break before any handler runs. -/
lemma uiIter_input_ctrlC (q : Bool) :
    uiIter ⟨UiEvent.input (Key.ctrl 'c'), q⟩ =
      ([UiOp.lockAcquire, UiOp.readTerminalSize, UiOp.draw,
        UiOp.awaitEvent (UiEvent.input (Key.ctrl 'c')), UiOp.breakLoop, UiOp.lockRelease],
        true) := by
  cases q <;> rfl

/-- Iteration trace on any other key input: dispatch to `handle_key_events`,
then fall through or break on `should_quit`. -/
lemma uiIter_input_other (k : Key) (hk : ¬ k = Key.ctrl 'c') (q : Bool) :
    uiIter ⟨UiEvent.input k, q⟩ =
      ([UiOp.lockAcquire, UiOp.readTerminalSize, UiOp.draw, UiOp.awaitEvent (UiEvent.input k),
        UiOp.handleKeyEvents k] ++
        (if q then [UiOp.breakLoop, UiOp.lockRelease] else [UiOp.lockRelease]), q) := by
  cases q <;> simp [uiIter, hk]

/-- Iteration trace on a mouse event. -/
lemma uiIter_mouse (q : Bool) :
    uiIter ⟨UiEvent.mouseInput, q⟩ =
      ([UiOp.lockAcquire, UiOp.readTerminalSize, UiOp.draw, UiOp.awaitEvent UiEvent.mouseInput,
        UiOp.handleMouseEvents] ++
        (if q then [UiOp.breakLoop, UiOp.lockRelease] else [UiOp.lockRelease]), q) := by
  cases q <;> rfl

/-- Iteration trace on a tick event. -/
lemma uiIter_tick (q : Bool) :
    uiIter ⟨UiEvent.tick, q⟩ =
      ([UiOp.lockAcquire, UiOp.readTerminalSize, UiOp.draw, UiOp.awaitEvent UiEvent.tick,
        UiOp.onTick] ++
        (if q then [UiOp.breakLoop, UiOp.lockRelease] else [UiOp.lockRelease]), q) := by
  cases q <;> rfl

/-- Unfolding of the loop on a nonempty input list. -/
lemma uiLoopTrace_cons (inp : UiInput) (rest : List UiInput) :
    uiLoopTrace (inp :: rest) =
      if (uiIter inp).2 then ((uiIter inp).1, true)
      else ((uiIter inp).1 ++ (uiLoopTrace rest).1, (uiLoopTrace rest).2) := by
  rcases h : uiIter inp with ⟨ops, b⟩
  cases b <;> simp [uiLoopTrace, h]

/-- Once an input triggers the quit condition, the loop has broken by the
end of the input list. -/
lemma uiLoopTrace_snd_of_quit (pre : List UiInput) (inp : UiInput) (rest : List UiInput)
    (hq : quitTrigger inp = true) : (uiLoopTrace (pre ++ inp :: rest)).2 = true := by
  induction pre with
  | nil =>
    have hb : (uiIter inp).2 = true := (uiIter_snd inp).trans hq
    simp [uiLoopTrace_cons, hb]
  | cons p ps ih =>
    by_cases hp : (uiIter p).2 = true
    · simp [uiLoopTrace_cons, hp]
    · simp only [List.cons_append, uiLoopTrace_cons]
      simp [hp, ih]

/-- The loop never consumes inputs beyond the first quit trigger. -/
lemma uiLoopTrace_indep (pre : List UiInput) (inp : UiInput) (rest rest2 : List UiInput)
    (hq : quitTrigger inp = true) :
    uiLoopTrace (pre ++ inp :: rest) = uiLoopTrace (pre ++ inp :: rest2) := by
  induction pre with
  | nil =>
    have hb : (uiIter inp).2 = true := (uiIter_snd inp).trans hq
    simp [uiLoopTrace_cons, hb]
  | cons p ps ih =>
    simp only [List.cons_append, uiLoopTrace_cons]
    rw [ih]

end Kdash

namespace Kdash

/-- C1, counterexample -- in the iteration whose event is a tick with
`should_quit` left false, the loop does block on `events.next()`
(an `awaitEvent` step occurs) but no release of the ApplicationState lock
precedes that blocking wait: the lock acquired at the top of the iteration
is still held while the loop waits for the next event. -/
theorem c1_lock_release_counterexample :
    (uiIter ⟨UiEvent.tick, false⟩).1.any isAwaitEvent = true ∧
      releasesBeforeEventWait (uiIter ⟨UiEvent.tick, false⟩).1 = false := by
  decide

/-- C1, amended -- in every iteration of the UI loop, the loop blocks
awaiting the next tick or input event while still holding the
ApplicationState lock acquired at the top of the iteration: the iteration
starts with the lock acquire, contains the blocking event wait, releases the
lock nowhere before that wait, and releases it only as the last step of the
iteration (also on the break paths). -/
theorem c1_lock_held_across_event_wait_amended (inp : UiInput) :
    (uiIter inp).1.head? = some UiOp.lockAcquire ∧
      (uiIter inp).1.any isAwaitEvent = true ∧
      releasesBeforeEventWait (uiIter inp).1 = false ∧
      (uiIter inp).1.getLast? = some UiOp.lockRelease := by
  rcases inp with ⟨ev, q⟩
  cases ev with
  | input k =>
    by_cases hk : k = Key.ctrl 'c'
    · subst hk
      rw [uiIter_input_ctrlC]
      exact ⟨rfl, rfl, rfl, rfl⟩
    · rw [uiIter_input_other k hk]
      cases q <;> exact ⟨rfl, rfl, rfl, rfl⟩
  | mouseInput =>
    rw [uiIter_mouse]
    cases q <;> exact ⟨rfl, rfl, rfl, rfl⟩
  | tick =>
    rw [uiIter_tick]
    cases q <;> exact ⟨rfl, rfl, rfl, rfl⟩

/-- C7 -- when an iteration's input is the `Ctrl+C` interrupt key or leaves
`should_quit` set, the loop breaks in that same iteration -- the trace is
unchanged by whatever inputs would follow -- and terminal restoration
(`terminal.show_cursor()` followed by `shutdown`'s disable-raw-mode,
leave-alternate-screen, show-cursor) runs after the loop's steps and before
`start_ui` returns. -/
theorem c7_quit_breaks_loop_then_restores (pre : List UiInput) (inp : UiInput)
    (rest rest2 : List UiInput) (hq : quitTrigger inp = true) :
    uiLoopTrace (pre ++ inp :: rest) = uiLoopTrace (pre ++ inp :: rest2) ∧
      start_ui_trace (pre ++ inp :: rest) =
        uiInitOps ++ (uiLoopTrace (pre ++ inp :: rest)).1 ++
          (UiOp.showCursor :: shutdownOps) := by
  refine ⟨uiLoopTrace_indep pre inp rest rest2 hq, ?_⟩
  unfold start_ui_trace
  rw [uiLoopTrace_snd_of_quit pre inp rest hq]
  simp

/-- Witness for C7: a `Ctrl+C` in the first iteration; a pending tick input
behind it is never consumed, and the trace ends with the restoration. -/
theorem c7_quit_breaks_loop_then_restores_witness :
    uiLoopTrace [⟨UiEvent.input (Key.ctrl 'c'), false⟩, ⟨UiEvent.tick, false⟩] =
      uiLoopTrace [⟨UiEvent.input (Key.ctrl 'c'), false⟩] ∧
      start_ui_trace [⟨UiEvent.input (Key.ctrl 'c'), false⟩, ⟨UiEvent.tick, false⟩] =
        uiInitOps ++
          (uiLoopTrace [⟨UiEvent.input (Key.ctrl 'c'), false⟩, ⟨UiEvent.tick, false⟩]).1 ++
          (UiOp.showCursor :: shutdownOps) :=
  c7_quit_breaks_loop_then_restores [] ⟨UiEvent.input (Key.ctrl 'c'), false⟩
    [⟨UiEvent.tick, false⟩] [] (by decide)

end Kdash

namespace Kdash

/-- A key-handler dispatch appearing in one iteration's trace is never for
the `Ctrl+C` key: the `Ctrl+C` branch breaks before dispatching. -/
lemma uiIter_no_ctrlC_dispatch (inp : UiInput) (k : Key)
    (h : UiOp.handleKeyEvents k ∈ (uiIter inp).1) : k ≠ Key.ctrl 'c' := by
  rcases inp with ⟨ev, q⟩
  cases ev with
  | input k' =>
    by_cases hk : k' = Key.ctrl 'c'
    · subst hk
      rw [uiIter_input_ctrlC] at h
      simp at h
    · rw [uiIter_input_other k' hk] at h
      cases q <;> simp at h <;> simpa [h] using hk
  | mouseInput =>
    rw [uiIter_mouse] at h
    cases q <;> simp at h
  | tick =>
    rw [uiIter_tick] at h
    cases q <;> simp at h

/-- A key-handler dispatch appearing anywhere in the loop trace is never for
the `Ctrl+C` key. -/
lemma uiLoopTrace_no_ctrlC_dispatch (inputs : List UiInput) (k : Key)
    (h : UiOp.handleKeyEvents k ∈ (uiLoopTrace inputs).1) : k ≠ Key.ctrl 'c' := by
  induction inputs with
  | nil => simp [uiLoopTrace] at h
  | cons inp rest ih =>
    rw [uiLoopTrace_cons] at h
    by_cases hb : (uiIter inp).2 = true
    · rw [if_pos hb] at h
      exact uiIter_no_ctrlC_dispatch inp k h
    · rw [if_neg hb] at h
      rcases List.mem_append.mp h with hmem | hmem
      · exact uiIter_no_ctrlC_dispatch inp k hmem
      · exact ih hmem

end Kdash

namespace Kdash

/-- C9 -- whenever an input event decodes to the `Ctrl+C` key, the UI loop
exits before dispatching to the key-handler layer: no `handle_key_events`
step anywhere in a `start_ui` trace carries the `Ctrl+C` key. -/
theorem c9_ctrlC_never_reaches_key_handlers (inputs : List UiInput) (k : Key)
    (h : UiOp.handleKeyEvents k ∈ start_ui_trace inputs) : k ≠ Key.ctrl 'c' := by
  unfold start_ui_trace at h
  rcases List.mem_append.mp h with h1 | h2
  · rcases List.mem_append.mp h1 with h0 | hloop
    · simp [uiInitOps] at h0
    · exact uiLoopTrace_no_ctrlC_dispatch inputs k hloop
  · by_cases hb : (uiLoopTrace inputs).2 = true
    · rw [if_pos hb] at h2
      simp [shutdownOps] at h2
    · rw [if_neg hb] at h2
      simp at h2

/-- Witness for C9: the key `a` is dispatched to `handle_key_events` in a
concrete run and is not `Ctrl+C`. -/
theorem c9_ctrlC_never_reaches_key_handlers_witness : Key.char 'a' ≠ Key.ctrl 'c' :=
  c9_ctrlC_never_reaches_key_handlers [⟨UiEvent.input (Key.char 'a'), false⟩]
    (Key.char 'a') (by decide)

end Kdash

namespace Kdash

/-- Embedding of `get_help_docs` (src/ui/help.rs lines 3-156): the static
help table, a vector of rows, each row a vector of strings.  Two entries
come from `DEFAULT_KEYBINDING` (`jump_to_all_context` and `submit`), whose
values live in `app.rs`, outside the given sources; the function is
therefore parameterized by those two strings, which the table inserts
verbatim. -/
def get_help_docs (jumpToAllContext submitKey : String) : List (List String) :=
  [ ["Jump to current play context", jumpToAllContext, "General"],
    ["Move selection left", "h | <Left Arrow Key> | <Ctrl+b>", "General"],
    ["Move selection down", "j | <Down Arrow Key> | <Ctrl+n>", "General"],
    ["Move selection up", "k | <Up Arrow Key> | <Ctrl+p>", "General"],
    ["Move selection right", "l | <Right Arrow Key> | <Ctrl+f>", "General"],
    ["Move selection to top of list", "H", "General"],
    ["Move selection to middle of list", "M", "General"],
    ["Move selection to bottom of list", "L", "General"],
    ["Enter active mode", "<Enter>", "General"],
    ["Enter hover mode", "<Esc>", "Selected block"],
    ["Save track in list or table", "s", "Selected block"],
    ["Start playback or enter album/artist/playlist", submitKey, "Selected block"],
    ["Play recommendations for song/artist", "r", "Selected block"],
    ["Play all tracks for artist", "e", "Library -> Artists"],
    ["Search with input text", "<Enter>", "Search input"],
    ["Move cursor one space left", "<Left Arrow Key>", "Search input"],
    ["Move cursor one space right", "<Right Arrow Key>", "Search input"],
    ["Delete entire input", "<Ctrl+l>", "Search input"],
    ["Delete text from cursor to start of input", "<Ctrl+u>", "Search input"],
    ["Delete text from cursor to end of input", "<Ctrl+k>", "Search input"],
    ["Delete previous word", "<Ctrl+w>", "Search input"],
    ["Jump to start of input", "<Ctrl+a>", "Search input"],
    ["Jump to end of input", "<Ctrl+e>", "Search input"],
    ["Escape from the input back to hovered block", "<Esc>", "Search input"],
    ["Delete saved album", "D", "Library -> Albums"],
    ["Delete saved playlist", "D", "Playlist"],
    ["Follow an artist/playlist", "w", "Search result"],
    ["Save (like) album to library", "w", "Search result"],
    ["Play random song in playlist", "S", "Selected Playlist"],
    ["Toggle sort order of podcast episodes", "S", "Selected Show"] ]

end Kdash

namespace Kdash

/-- C10 -- every row of the static help table returned by `get_help_docs`
contains exactly three entries (an action description, a key combination,
and an applicable context), for any values of the two keybinding strings. -/
theorem c10_help_rows_have_three_entries (jumpToAllContext submitKey : String)
    (row : List String) (h : row ∈ get_help_docs jumpToAllContext submitKey) :
    row.length = 3 := by
  have hall : (get_help_docs jumpToAllContext submitKey).all
      (fun r => decide (r.length = 3)) = true := by rfl
  exact of_decide_eq_true (List.all_eq_true.mp hall row h)

/-- Witness for C10 on the first row of the table. -/
theorem c10_help_rows_have_three_entries_witness :
    (["Jump to current play context", "J", "General"] : List String).length = 3 :=
  c10_help_rows_have_three_entries "J" "cr"
    ["Jump to current play context", "J", "General"] (List.Mem.head _)

end Kdash
